import Mathlib

/-!
Verification of the `got-ur-logs-uwu` logging library.

The development shallowly embeds the library's core (dispatch engine,
severity ordering, message builder, plaintext formatter, global singleton
accessor) as executable Lean definitions and proves the specified
properties about them.

Conventions of the embedding:

* Rust's `PartialOrd` on a severity type `S` is modelled by a function
  `pcmp : S → S → Option Ordering`, mirroring `partial_cmp`; the derived
  comparison operator `>=` used by `Logger::log_message` is
  `rustGe pcmp a b = true` iff `pcmp a b` is `some .gt` or `some .eq`,
  exactly as Rust's default `PartialOrd::ge` is derived from `partial_cmp`.
* A registered writer (`Arc<Mutex<dyn Write<_, _>>>`) is modelled by a
  `WriterModel`, a function from a message to the `Result` of its `write`
  call (`ok` for `Ok(())`, `err` for `Err(_)`).
* `Logger::log_message` returns a dispatch trace: the list of writer
  indices (registration positions) whose `write` was invoked, in
  invocation order, together with a flag that is `true` iff the dispatch
  loop panicked (the `.expect("Failed to write message")` on an `Err`).
* Rust panics are modelled by `Option`/flags, never by silent success.
-/

/-- The default severity enumeration of `severity.rs`, in declaration
order (the derived `PartialOrd` compares discriminants). -/
inductive Severity where
  | Trace
  | Debug
  | DeveloperWarning
  | Info
  | Warning
  | Error
  | Fatal
deriving DecidableEq, Repr

/-- Discriminant of a `Severity` value, as assigned by declaration order. -/
def Severity.toNat : Severity → Nat
  | .Trace => 0
  | .Debug => 1
  | .DeveloperWarning => 2
  | .Info => 3
  | .Warning => 4
  | .Error => 5
  | .Fatal => 6

/-- `partial_cmp` of the derived `PartialOrd` on `Severity`: it compares
discriminants and is total on this enum. -/
def Severity.pcmp (a b : Severity) : Option Ordering :=
  some (compare a.toNat b.toNat)

/-- The strum `Display` serialization of each severity level, from the
`#[strum(serialize = "...")]` attributes in `severity.rs`. -/
def Severity.display : Severity → String
  | .Trace => "trace"
  | .Debug => "debug"
  | .DeveloperWarning => "dev warning"
  | .Info => "info"
  | .Warning => "warning"
  | .Error => "error"
  | .Fatal => "fatal"

/-- `IsSeverity::min()` for the default severity type (`Severity::Trace`). -/
def Severity.minSeverity : Severity := .Trace

/-- `IsSeverity::max()` for the default severity type (`Severity::Fatal`). -/
def Severity.maxSeverity : Severity := .Fatal

/-- Rust's `a >= b` as derived from `partial_cmp`:
`matches!(pcmp a b, Some(Greater) | Some(Equal))`. -/
def rustGe {S : Type} (pcmp : S → S → Option Ordering) (a b : S) : Bool :=
  match pcmp a b with
  | some .gt => true
  | some .eq => true
  | _ => false

/-- Rust's `a < b` as derived from `partial_cmp`:
`matches!(pcmp a b, Some(Less))`. -/
def rustLt {S : Type} (pcmp : S → S → Option Ordering) (a b : S) : Bool :=
  match pcmp a b with
  | some .lt => true
  | _ => false

/-- The result of one `Write::write` call: `Ok(())` or `Err(_)`. -/
inductive WriteResult where
  | ok
  | err
deriving DecidableEq, Repr

/-- A registered writer, reduced to the observable behaviour of its
`write` method on each message. -/
structure WriterModel (Msg : Type) where
  write : Msg → WriteResult

/-- The default message type of `message.rs`: a severity paired with a
text payload. -/
structure Message (S : Type) where
  _severity : S
  _text : String
deriving DecidableEq, Repr

/-- `HasSeverity::severity` for the default message type. -/
def Message.severity {S : Type} (m : Message S) : S := m._severity

/-- `HasText::text` for the default message type. -/
def Message.text {S : Type} (m : Message S) : String := m._text

/-- `FromCoreFields::from_core_fields` for the default message type. -/
def Message.from_core_fields {S : Type} (s : S) (t : String) : Message S :=
  ⟨s, t⟩

/-- The `Logger` struct of `logger.rs`: a minimum-severity threshold and
the ordered list of registered writers. -/
structure Logger (S Msg : Type) where
  min_severity : S
  writers : List (WriterModel Msg)

/-- `Logger::default()`: threshold `Severity::min()` (passed here as
`minSev`), empty writer list. -/
def Logger.defaultLogger (S Msg : Type) (minSev : S) : Logger S Msg :=
  { min_severity := minSev, writers := [] }

/-- `Logger::add_writer`: wraps the writer and pushes it onto the list. -/
def Logger.add_writer {S Msg : Type} (L : Logger S Msg) (w : WriterModel Msg) :
    Logger S Msg :=
  { L with writers := L.writers ++ [w] }

/-- `Logger::add_writer_shared`: pushes the shared handle onto the list
(the list effect is identical to `add_writer`). -/
def Logger.add_writer_shared {S Msg : Type} (L : Logger S Msg)
    (w : WriterModel Msg) : Logger S Msg :=
  { L with writers := L.writers ++ [w] }

/-- The dispatch loop of `log_message`, started at writer index `i`:
invokes each writer in order; on the first `Err` the `.expect` panics, so
the trace ends at the failing writer with the panic flag set. -/
def runWriters {Msg : Type} : List (WriterModel Msg) → Msg → Nat → List Nat × Bool
  | [], _, _ => ([], false)
  | w :: rest, m, i =>
    match w.write m with
    | .ok =>
      let r := runWriters rest m (i + 1)
      (i :: r.1, r.2)
    | .err => ([i], true)

/-- `Logger::log_message`: if `message.severity() >= self.min_severity`
(Rust `>=` over the severity type's `PartialOrd`), run the writer loop;
otherwise drop the message. `sevOf` is `HasSeverity::severity` of the
message type. Returns the trace of invoked writer indices and the panic
flag. -/
def Logger.log_message {S Msg : Type} (pcmp : S → S → Option Ordering)
    (sevOf : Msg → S) (L : Logger S Msg) (m : Msg) : List Nat × Bool :=
  if rustGe pcmp (sevOf m) L.min_severity then runWriters L.writers m 0
  else ([], false)

/-- One writer-registration call: either `add_writer` (owned writer) or
`add_writer_shared` (shared handle). -/
inductive RegOp (Msg : Type) where
  | owned : WriterModel Msg → RegOp Msg
  | shared : WriterModel Msg → RegOp Msg

/-- The writer registered by a registration call. -/
def RegOp.writer {Msg : Type} : RegOp Msg → WriterModel Msg
  | .owned w => w
  | .shared w => w

/-- Apply a sequence of registration calls to a logger, in order. -/
def Logger.applyReg {S Msg : Type} (L : Logger S Msg) :
    List (RegOp Msg) → Logger S Msg
  | [] => L
  | .owned w :: rest => (L.add_writer w).applyReg rest
  | .shared w :: rest => (L.add_writer_shared w).applyReg rest

/-- The `MessageBuilder` of `private/message_builder.rs`: two optional
fields, both defaulting to unset. -/
structure MessageBuilder (S : Type) where
  severity : Option S := none
  text : Option String := none

/-- `MessageBuilder::build`: `self.severity.expect(..)` and
`self.text.expect(..)`. `none` models the panic when a required field was
never set; `some` carries the built message. -/
def MessageBuilder.build {S : Type} (b : MessageBuilder S) :
    Option (Message S) :=
  match b.severity, b.text with
  | some s, some t => some ⟨s, t⟩
  | _, _ => none

/-- Scan the characters after an opening brace pair until the closing
brace pair, returning the variable name and the remaining template. -/
def takeVar : List Char → List Char × List Char
  | [] => ([], [])
  | '\x7d' :: '\x7d' :: rest => ([], rest)
  | c :: rest =>
    let r := takeVar rest
    (c :: r.1, r.2)

/-- The value substituted for a template variable: the formatter's data
map of `plaintext.rs` binds exactly `severity` and `text`; handlebars
renders an unbound simple variable as the empty string. -/
def varValue (sev text : String) (name : List Char) : List Char :=
  if name = "severity".toList then sev.toList
  else if name = "text".toList then text.toList
  else []

/-- Handlebars rendering of a simple template (literal text plus
`severity`/`text` variable substitutions, the only features the
formatter's templates use). `fuel` bounds the recursion; each step
consumes at least one character, so `cs.length` fuel always suffices. -/
def renderFuel (sev text : String) : Nat → List Char → List Char
  | 0, _ => []
  | _ + 1, [] => []
  | fuel + 1, '\x7b' :: '\x7b' :: rest =>
    let r := takeVar rest
    varValue sev text r.1 ++ renderFuel sev text fuel r.2
  | fuel + 1, c :: rest => c :: renderFuel sev text fuel rest

/-- Render a template string with the given severity rendering and text. -/
def renderTemplate (tmpl sev text : String) : String :=
  String.mk (renderFuel sev text tmpl.toList.length tmpl.toList)

/-- `Plaintext::format` of `formatters/plaintext.rs`: binds `severity` to
`message.severity().to_string()` (the severity's `Display` rendering) and
`text` to `message.text()`, then renders the registered template. -/
def plaintextFormat {S : Type} (tmpl : String) (sevDisp : S → String)
    (m : Message S) : String :=
  renderTemplate tmpl (sevDisp m.severity) m.text

/-- The template registered by `Plaintext::new_default()`. -/
def defaultTemplate : String := "[\x7b\x7bseverity\x7d\x7d] \x7b\x7btext\x7d\x7d"

/-- The singleton slot behind `Logger::global`: `static mut LOGGER:
Option<Box<dyn Any>>`. The `Nat` tag models the runtime type
(`TypeId`) of the boxed concrete `Logger` instantiation, which
`downcast_mut::<Self>` checks. -/
def GlobalSlot (S Msg : Type) := Option (Nat × Logger S Msg)

/-- One sequential call to `Logger::global` for the instantiation tagged
`tag` (whose `Severity::min()` is `minSev`): if the slot is empty, a
default logger is boxed and stored; then the stored box is downcast to
the requested type. Returns the new slot state and `true` iff the call
panicked (`expect("Global logger can only ever have one type")`). The
returned `&'static mut` handle aliases the slot, so the logger visible
through it is exactly the logger stored in the returned slot. -/
def globalCall {S Msg : Type} (minSev : S) (slot : GlobalSlot S Msg)
    (tag : Nat) : GlobalSlot S Msg × Bool :=
  match slot with
  | none => (some (tag, Logger.defaultLogger S Msg minSev), false)
  | some (t, L) =>
    if t = tag then (some (t, L), false) else (some (t, L), true)

/-- Progress of one thread through the body of `Logger::global`:
`start` = about to evaluate `LOGGER.is_none()`; `storing` = observed
`None`, about to execute `LOGGER = Some(Box::default())`; `done id` =
finished, holding a reference to the boxed instance numbered `id`. -/
inductive TPhase where
  | start : TPhase
  | storing : TPhase
  | done : Nat → TPhase
deriving DecidableEq, Repr

/-- Shared state of two threads racing through `Logger::global` on the
same instantiation: the `static mut` slot (holding the number of the
stored boxed instance), how many `Box::default()` constructions have
run, and each thread's progress. -/
structure RaceState where
  slot : Option Nat
  constructions : Nat
  t1 : TPhase
  t2 : TPhase
deriving DecidableEq, Repr

/-- Advance one thread by one step of `Logger::global`. The `is_none`
check and the store are distinct operations on the unsynchronized
`static mut`, so they are distinct steps; a store constructs a fresh
boxed logger, overwrites the slot, and the thread then obtains its
reference from the slot it just wrote. -/
def threadStep (ph : TPhase) (slot : Option Nat) (cons : Nat) :
    TPhase × Option Nat × Nat :=
  match ph, slot with
  | .start, none => (.storing, none, cons)
  | .start, some id => (.done id, some id, cons)
  | .storing, _ => (.done cons, some cons, cons + 1)
  | .done id, s => (.done id, s, cons)

/-- Advance the chosen thread (`true` = first thread) by one step. -/
def raceStep (s : RaceState) (first : Bool) : RaceState :=
  if first then
    let r := threadStep s.t1 s.slot s.constructions
    { slot := r.2.1, constructions := r.2.2, t1 := r.1, t2 := s.t2 }
  else
    let r := threadStep s.t2 s.slot s.constructions
    { slot := r.2.1, constructions := r.2.2, t1 := s.t1, t2 := r.1 }

/-- Run a schedule (an interleaving of thread steps). -/
def raceRun (s : RaceState) (sched : List Bool) : RaceState :=
  sched.foldl raceStep s

/-- Initial state: slot uninitialized, both threads about to call
`Logger::global` for the first time. -/
def raceInit : RaceState :=
  { slot := none, constructions := 0, t1 := .start, t2 := .start }

/-- A writer over the default types whose `write` always returns `Ok(())`. -/
def wOk : WriterModel (Message Severity) := ⟨fun _ => WriteResult.ok⟩

/-- A writer over the default types whose `write` always returns `Err(_)`. -/
def wErr : WriterModel (Message Severity) := ⟨fun _ => WriteResult.err⟩

/-- A writer over a two-point custom severity type, always accepting. -/
def wOkB : WriterModel (Message Bool) := ⟨fun _ => WriteResult.ok⟩

/-- The `partial_cmp` of a custom severity type on which every pair of
values is incomparable (`partial_cmp` always returns `None`); such an
implementation satisfies the `PartialEq + PartialOrd` bound of
`IsSeverity`, which does not require `Ord`. -/
def noneCmp : Bool → Bool → Option Ordering := fun _ _ => none

/-! Helper lemmas about the dispatch loop. -/

/-- If every writer in the list accepts the message, the loop invokes
each of them once, in order, and does not panic. -/
theorem runWriters_all_ok {Msg : Type} (m : Msg) :
    ∀ (ws : List (WriterModel Msg)) (i : Nat),
      (∀ w ∈ ws, w.write m = WriteResult.ok) →
      runWriters ws m i = (List.range' i ws.length, false) := by
  intro ws
  induction ws with
  | nil => intro i _; rfl
  | cons w rest ih =>
    intro i h
    have hw : w.write m = WriteResult.ok := h w (by simp)
    have hrest : ∀ x ∈ rest, x.write m = WriteResult.ok := by
      intro x hx
      exact h x (by simp [hx])
    simp [runWriters, hw, ih (i + 1) hrest, List.range'_succ]

/-- If the writers before position `k` accept the message and the writer
at position `k` fails, the loop invokes exactly writers `i, …, i + k`
(the failing one last) and panics; the writers after the failing one are
never invoked. -/
theorem runWriters_first_err {Msg : Type} (m : Msg) :
    ∀ (ws1 : List (WriterModel Msg)) (w : WriterModel Msg)
      (ws2 : List (WriterModel Msg)) (i : Nat),
      (∀ x ∈ ws1, x.write m = WriteResult.ok) →
      w.write m = WriteResult.err →
      runWriters (ws1 ++ w :: ws2) m i = (List.range' i (ws1.length + 1), true) := by
  intro ws1
  induction ws1 with
  | nil =>
    intro w ws2 i _ herr
    simp [runWriters, herr, List.range'_succ]
  | cons x rest ih =>
    intro w ws2 i h herr
    have hx : x.write m = WriteResult.ok := h x (by simp)
    have hrest : ∀ y ∈ rest, y.write m = WriteResult.ok := by
      intro y hy
      exact h y (by simp [hy])
    simp [runWriters, hx, ih w ws2 (i + 1) hrest herr, List.range'_succ]

/-- Registration calls append writers in order and leave the threshold
unchanged. -/
theorem applyReg_spec {S Msg : Type} :
    ∀ (ops : List (RegOp Msg)) (L : Logger S Msg),
      (L.applyReg ops).writers = L.writers ++ ops.map RegOp.writer ∧
      (L.applyReg ops).min_severity = L.min_severity := by
  intro ops
  induction ops with
  | nil => intro L; simp [Logger.applyReg]
  | cons op rest ih =>
    intro L
    cases op with
    | owned w =>
      have h := ih { L with writers := L.writers ++ [w] }
      refine ⟨?_, ?_⟩
      · rw [show (L.applyReg (RegOp.owned w :: rest)).writers
            = ({ L with writers := L.writers ++ [w] }.applyReg rest).writers from rfl,
          h.1]
        simp [RegOp.writer]
      · rw [show (L.applyReg (RegOp.owned w :: rest)).min_severity
            = ({ L with writers := L.writers ++ [w] }.applyReg rest).min_severity from rfl,
          h.2]
    | shared w =>
      have h := ih { L with writers := L.writers ++ [w] }
      refine ⟨?_, ?_⟩
      · rw [show (L.applyReg (RegOp.shared w :: rest)).writers
            = ({ L with writers := L.writers ++ [w] }.applyReg rest).writers from rfl,
          h.1]
        simp [RegOp.writer]
      · rw [show (L.applyReg (RegOp.shared w :: rest)).min_severity
            = ({ L with writers := L.writers ++ [w] }.applyReg rest).min_severity from rfl,
          h.2]

/-! The claims. -/

/-- C1: for a logger whose threshold is `s2` and a message whose severity
is `s1`: if `s1 < s2` then `log_message` performs zero writer invocations
and neither fails nor panics; if `s1 >= s2` (and the writers accept the
message, so that no dispatch-time panic interferes) then `log_message`
invokes each registered writer exactly once. -/
theorem claim_C1 {S Msg : Type} (pcmp : S → S → Option Ordering)
    (sevOf : Msg → S) (s2 : S) (ws : List (WriterModel Msg)) (m : Msg) :
    (rustLt pcmp (sevOf m) s2 = true →
      Logger.log_message pcmp sevOf ⟨s2, ws⟩ m = ([], false)) ∧
    (rustGe pcmp (sevOf m) s2 = true →
      (∀ w ∈ ws, w.write m = WriteResult.ok) →
      Logger.log_message pcmp sevOf ⟨s2, ws⟩ m = (List.range ws.length, false)) := by
  constructor
  · intro hlt
    have hge : rustGe pcmp (sevOf m) s2 = false := by
      unfold rustLt at hlt
      unfold rustGe
      cases hcmp : pcmp (sevOf m) s2 with
      | none => rfl
      | some o => cases o <;> simp [hcmp] at hlt ⊢
    simp [Logger.log_message, hge]
  · intro hge hok
    simp [Logger.log_message, hge, runWriters_all_ok m ws 0 hok,
      List.range_eq_range']

/-- Witness for C1: the default severity order, threshold `Info`, one
accepting writer; a `Debug` message is dropped and an `Error` message is
dispatched to the writer exactly once. -/
theorem claim_C1_witness :
    Logger.log_message Severity.pcmp Message.severity
      ⟨Severity.Info, [⟨fun _ => WriteResult.ok⟩]⟩
      (Message.from_core_fields Severity.Debug "x") = ([], false) ∧
    Logger.log_message Severity.pcmp Message.severity
      ⟨Severity.Info, [⟨fun _ => WriteResult.ok⟩]⟩
      (Message.from_core_fields Severity.Error "x") = ([0], false) := by
  constructor
  · exact (claim_C1 Severity.pcmp Message.severity Severity.Info
      [⟨fun _ => WriteResult.ok⟩] (Message.from_core_fields Severity.Debug "x")).1
      (by decide)
  · have h := (claim_C1 Severity.pcmp Message.severity Severity.Info
      [⟨fun _ => WriteResult.ok⟩] (Message.from_core_fields Severity.Error "x")).2
      (by decide) (by intro w hw; rw [List.mem_singleton.mp hw])
    simpa using h

/-- C2: starting from a default logger, any mixture of `add_writer` and
`add_writer_shared` calls registers exactly the given writers, in call
order, with no deduplication; one `log_message` call with a message at or
above threshold (whose writers all accept it) invokes each registered
writer exactly once, in registration order. -/
theorem claim_C2 {S Msg : Type} (pcmp : S → S → Option Ordering)
    (sevOf : Msg → S) (minSev : S) (ops : List (RegOp Msg)) (m : Msg)
    (hge : rustGe pcmp (sevOf m) minSev = true)
    (hok : ∀ op ∈ ops, (RegOp.writer op).write m = WriteResult.ok) :
    ((Logger.defaultLogger S Msg minSev).applyReg ops).writers
      = ops.map RegOp.writer ∧
    Logger.log_message pcmp sevOf ((Logger.defaultLogger S Msg minSev).applyReg ops) m
      = (List.range ops.length, false) := by
  have h := applyReg_spec ops (Logger.defaultLogger S Msg minSev)
  have hw : ((Logger.defaultLogger S Msg minSev).applyReg ops).writers
      = ops.map RegOp.writer := by
    rw [h.1]
    simp [Logger.defaultLogger]
  have hms : ((Logger.defaultLogger S Msg minSev).applyReg ops).min_severity
      = minSev := by
    rw [h.2]
    rfl
  refine ⟨hw, ?_⟩
  have hok2 : ∀ w ∈ ops.map RegOp.writer, w.write m = WriteResult.ok := by
    intro w hw2
    rcases List.mem_map.mp hw2 with ⟨op, hop, rfl⟩
    exact hok op hop
  simp [Logger.log_message, hms, hge, hw, runWriters_all_ok m _ 0 hok2,
    List.range_eq_range']

/-- Witness for C2: an owned, a shared, and a duplicate owned
registration of the same writer yield three list entries, and an
accepted message is dispatched once to each, in order. -/
theorem claim_C2_witness :
    ((Logger.defaultLogger Severity (Message Severity) Severity.Trace).applyReg
        [RegOp.owned wOk, RegOp.shared wOk, RegOp.owned wOk]).writers
      = [wOk, wOk, wOk] ∧
    Logger.log_message Severity.pcmp Message.severity
      ((Logger.defaultLogger Severity (Message Severity) Severity.Trace).applyReg
        [RegOp.owned wOk, RegOp.shared wOk, RegOp.owned wOk])
      (Message.from_core_fields Severity.Info "x")
      = ([0, 1, 2], false) := by
  have h := claim_C2 Severity.pcmp Message.severity Severity.Trace
    [RegOp.owned wOk, RegOp.shared wOk, RegOp.owned wOk]
    (Message.from_core_fields Severity.Info "x")
    (by decide)
    (by
      intro op hop
      fin_cases hop <;> rfl)
  simpa [RegOp.writer] using h

/-- C3 counterexample: a logger with two writers, threshold `Trace`; the
first writer fails on an accepted `Info` message. The dispatch trace is
`[0]` with a panic: writer `1`, registered after the failing writer, is
never invoked, contradicting the claim that every writer after the
failing one still receives the message. -/
theorem claim_C3_counterexample :
    wErr.write (Message.from_core_fields Severity.Info "x") = WriteResult.err ∧
    Logger.log_message Severity.pcmp Message.severity ⟨Severity.Trace, [wErr, wOk]⟩
      (Message.from_core_fields Severity.Info "x") = ([0], true) ∧
    ¬ (1 ∈ (Logger.log_message Severity.pcmp Message.severity
      ⟨Severity.Trace, [wErr, wOk]⟩
      (Message.from_core_fields Severity.Info "x")).1) := by
  refine ⟨rfl, by decide, by decide⟩

/-- C3 amended: during `log_message` dispatch of an accepted message, a
write failure (`Err`) from one registered writer aborts the dispatch with
a panic (`expect("Failed to write message")`): the writers registered
before the first failing one and the failing one itself are invoked, and
every writer after the failing one is never invoked. -/
theorem claim_C3_amended {S Msg : Type} (pcmp : S → S → Option Ordering)
    (sevOf : Msg → S) (thr : S) (ws1 : List (WriterModel Msg))
    (w : WriterModel Msg) (ws2 : List (WriterModel Msg)) (m : Msg)
    (hge : rustGe pcmp (sevOf m) thr = true)
    (hok : ∀ x ∈ ws1, x.write m = WriteResult.ok)
    (herr : w.write m = WriteResult.err) :
    Logger.log_message pcmp sevOf ⟨thr, ws1 ++ w :: ws2⟩ m
      = (List.range (ws1.length + 1), true) := by
  simp [Logger.log_message, hge, runWriters_first_err m ws1 w ws2 0 hok herr,
    List.range_eq_range']

/-- Witness for C3 amended: writers `[ok, err, ok]`; the accepted message
reaches writers `0` and `1`, the dispatch panics, and writer `2` is never
invoked. -/
theorem claim_C3_witness :
    Logger.log_message Severity.pcmp Message.severity
      ⟨Severity.Trace, [wOk] ++ wErr :: [wOk]⟩
      (Message.from_core_fields Severity.Info "x")
      = (List.range ([wOk].length + 1), true) :=
  claim_C3_amended Severity.pcmp Message.severity Severity.Trace [wOk] wErr [wOk]
    (Message.from_core_fields Severity.Info "x")
    (by decide)
    (by intro x hx; rw [List.mem_singleton.mp hx]; rfl)
    rfl

/-- C4, behaviour of the code at the claimed inputs: the strum `Display`
serialization of `Severity::Info` is the lowercase string `info`, so the
default template of `Plaintext::new_default()` renders
`(severity=Info, text="hello, world")` as `[info] hello, world`, not as
the `[INFO] hello, world` stated by the claim and by the formatter's own
doc comments; the custom template renders `info: hello, world` as
claimed. -/
theorem claim_C4_actual :
    plaintextFormat defaultTemplate Severity.display
      (Message.from_core_fields Severity.Info "hello, world")
      = "[info] hello, world" ∧
    plaintextFormat "\x7b\x7bseverity\x7d\x7d: \x7b\x7btext\x7d\x7d" Severity.display
      (Message.from_core_fields Severity.Info "hello, world")
      = "info: hello, world" ∧
    ¬ (plaintextFormat defaultTemplate Severity.display
      (Message.from_core_fields Severity.Info "hello, world")
      = "[INFO] hello, world") := by
  refine ⟨by decide, by decide, by decide⟩

/-- C5: with the singleton slot empty, a call to `global` for the
instantiation tagged `tag` stores a default logger (threshold
`Severity::min()`, empty writer list) and does not panic; any later call
with the same tag returns the very slot contents unchanged, so a
mutation made through one call's handle (here an `add_writer`) is
exactly what the next call's handle observes. -/
theorem claim_C5 {S Msg : Type} (minSev : S) (tag : Nat) (w : WriterModel Msg) :
    globalCall minSev (none : GlobalSlot S Msg) tag
      = (some (tag, Logger.defaultLogger S Msg minSev), false) ∧
    (Logger.defaultLogger S Msg minSev).min_severity = minSev ∧
    (Logger.defaultLogger S Msg minSev).writers = [] ∧
    (∀ L : Logger S Msg,
      globalCall minSev (some (tag, L)) tag = (some (tag, L), false)) ∧
    globalCall minSev
        (some (tag, (Logger.defaultLogger S Msg minSev).add_writer w)) tag
      = (some (tag, (Logger.defaultLogger S Msg minSev).add_writer w), false) := by
  refine ⟨rfl, rfl, rfl, ?_, ?_⟩
  · intro L
    simp [globalCall]
  · simp [globalCall]

/-- C6: if the slot already holds the logger constructed for the
instantiation tagged `t1`, a call to `global` for a different
instantiation `t2` panics (the `downcast_mut` fails with `Global logger
can only ever have one type`) and leaves the slot unchanged: no logger is
returned and no second instance is created. -/
theorem claim_C6 {S Msg : Type} (minSev : S) (t1 t2 : Nat) (L : Logger S Msg)
    (hne : t1 ≠ t2) :
    globalCall minSev (some (t1, L)) t2 = (some (t1, L), true) := by
  simp [globalCall, hne]

/-- Witness for C6: a slot initialized for tag `0` panics on a request
for tag `1` and keeps its contents. -/
theorem claim_C6_witness :
    globalCall Severity.minSeverity
      (some (0, Logger.defaultLogger Severity (Message Severity) Severity.minSeverity)) 1
      = (some (0, Logger.defaultLogger Severity (Message Severity) Severity.minSeverity),
        true) :=
  claim_C6 Severity.minSeverity 0 1
    (Logger.defaultLogger Severity (Message Severity) Severity.minSeverity)
    (by decide)

/-- C7, behaviour of the code under a concurrent first call: the
`is_none` check and the store on the unsynchronized `static mut LOGGER`
are separate steps, so the interleaving in which both threads pass the
check before either stores makes both threads run `Box::default()`: two
constructions occur and the two callers end up holding references to two
different instances (numbered 0 and 1), contradicting the claimed
initialize-once semantics. -/
theorem claim_C7_race :
    (raceRun raceInit [true, false, true, false]).constructions = 2 ∧
    (raceRun raceInit [true, false, true, false]).t1 = TPhase.done 0 ∧
    (raceRun raceInit [true, false, true, false]).t2 = TPhase.done 1 := by
  refine ⟨by decide, by decide, by decide⟩

/-- C8: building a message from a builder with severity `s` and text `t`
set succeeds and round-trips both core fields exactly. -/
theorem claim_C8 {S : Type} (s : S) (t : String) :
    ∃ m : Message S,
      MessageBuilder.build ⟨some s, some t⟩ = some m ∧
      m.severity = s ∧ m.text = t :=
  ⟨⟨s, t⟩, rfl, rfl, rfl⟩

/-- C9: `build` panics whenever the text field was never set, and
whenever the severity field was never set; it succeeds exactly when both
required fields are set. -/
theorem claim_C9 {S : Type} (b : MessageBuilder S) :
    (b.text = none → b.build = none) ∧
    (b.severity = none → b.build = none) ∧
    ((∃ m, b.build = some m) ↔ (b.severity.isSome ∧ b.text.isSome)) := by
  obtain ⟨sev, txt⟩ := b
  cases sev <;> cases txt <;>
    simp [MessageBuilder.build]

/-- Witness for C9: with severity set but text unset, `build` panics;
with text set but severity unset, `build` panics; with both set it
succeeds. -/
theorem claim_C9_witness :
    MessageBuilder.build (⟨some Severity.Info, none⟩ : MessageBuilder Severity)
      = none ∧
    MessageBuilder.build (⟨none, some "x"⟩ : MessageBuilder Severity) = none ∧
    MessageBuilder.build (⟨some Severity.Info, some "x"⟩ : MessageBuilder Severity)
      = some (Message.from_core_fields Severity.Info "x") :=
  ⟨(claim_C9 ⟨some Severity.Info, none⟩).1 rfl,
   (claim_C9 ⟨none, some "x"⟩).2.1 rfl,
   rfl⟩

/-- C10: the logger requires only a partial order on severities (the
`IsSeverity` bound is `PartialEq + PartialOrd`, modelled by `pcmp`
returning an `Option Ordering`); when the message's severity and the
threshold are incomparable (`partial_cmp` returns `None`, so both `<`
and `>=` are false), `log_message` drops the message exactly as a
below-threshold message: zero writer invocations, no panic, no error. -/
theorem claim_C10 {S Msg : Type} (pcmp : S → S → Option Ordering)
    (sevOf : Msg → S) (L : Logger S Msg) (m : Msg)
    (hinc : pcmp (sevOf m) L.min_severity = none) :
    Logger.log_message pcmp sevOf L m = ([], false) := by
  have hge : rustGe pcmp (sevOf m) L.min_severity = false := by
    unfold rustGe
    rw [hinc]
  simp [Logger.log_message, hge]

/-- Witness for C10: a custom two-point severity type whose
`partial_cmp` always returns `None`; a message against a logger with one
writer is silently dropped. -/
theorem claim_C10_witness :
    noneCmp true false = none ∧
    Logger.log_message noneCmp Message.severity ⟨false, [wOkB]⟩
      (Message.from_core_fields true "x") = ([], false) :=
  ⟨rfl,
   claim_C10 noneCmp Message.severity ⟨false, [wOkB]⟩
     (Message.from_core_fields true "x") rfl⟩
